import Mathlib

/-!
Verification of the beam cross-section algebra (src/beam.py).

The source builds immutable expression trees of cross-sections: a unit-square
leaf and four combinators (_ShiftedCrosssection, _ScaledCrossection,
_WeightedCrossection, _SumCrossection), each exposing four queries: area, bb
(bounding box), mom (second moment of area about y = 0) and com (centroid).
Python floats are modelled by exact rationals.  The centroid query can raise
ZeroDivisionError (in _SumCrossection.com when the children's areas cancel),
so `com` returns an `Option`; every other query on a well-formed tree is total.

The dynamic-typing behaviour of `_Crossection.scale` (which converts a single
float to a pair but leaves an int unconverted, so that later subscripting of
the stored value raises TypeError) and of `__mul__` (which asserts its
argument is numeric at construction time) is modelled separately with small
argument types distinguishing the Python runtime cases.
-/

namespace Beam

/-- Expression tree of cross-sections, mirroring the class hierarchy of
src/beam.py: `_UnitSquare`, `_ShiftedCrosssection`, `_ScaledCrossection`,
`_WeightedCrossection`, `_SumCrossection`. -/
inductive Crossection where
  | unitSquare : Crossection
  | shifted : Crossection → ℚ × ℚ → Crossection
  | scaled : Crossection → ℚ × ℚ → Crossection
  | weighted : Crossection → ℚ → Crossection
  | sum : Crossection → Crossection → Crossection
deriving DecidableEq

/-- `area` property: 1 for the unit square; unchanged by shift; multiplied by
fx·fy by scale; multiplied by w by weight; added by sum. -/
def area : Crossection → ℚ
  | .unitSquare => 1
  | .shifted c _ => area c
  | .scaled c f => area c * f.1 * f.2
  | .weighted c w => area c * w
  | .sum a b => area a + area b

/-- `bb` property, ((xmin, ymin), (xmax, ymax)): the unit square occupies
((-0.5,-0.5),(0.5,0.5)); shift translates each corner; scale multiplies each
coordinate by its axis factor; weight passes through; sum takes componentwise
min of mins and max of maxes. -/
def bb : Crossection → (ℚ × ℚ) × (ℚ × ℚ)
  | .unitSquare => ((-(1/2 : ℚ), -(1/2 : ℚ)), ((1/2 : ℚ), (1/2 : ℚ)))
  | .shifted c o =>
      (((bb c).1.1 + o.1, (bb c).1.2 + o.2), ((bb c).2.1 + o.1, (bb c).2.2 + o.2))
  | .scaled c f =>
      (((bb c).1.1 * f.1, (bb c).1.2 * f.2), ((bb c).2.1 * f.1, (bb c).2.2 * f.2))
  | .weighted c _ => bb c
  | .sum a b =>
      ((min (bb a).1.1 (bb b).1.1, min (bb a).1.2 (bb b).1.2),
       (max (bb a).2.1 (bb b).2.1, max (bb a).2.2 (bb b).2.2))

/-- `mom` property (second moment of area about the fixed axis y = 0):
1/12 for the unit square; shift adds area·dy·dy (parallel axis); scale
multiplies by fx·fy³; weight multiplies by w; sum adds. -/
def mom : Crossection → ℚ
  | .unitSquare => 1/12
  | .shifted c o => mom c + area c * o.2 * o.2
  | .scaled c f => mom c * f.1 * f.2 ^ 3
  | .weighted c w => mom c * w
  | .sum a b => mom a + mom b

/-- `com` property (centroid).  `none` models a ZeroDivisionError raised by
`_SumCrossection.com` when the children's areas sum to exactly zero; the
fault propagates upward through every combinator that queries a child's
centroid. -/
def com : Crossection → Option (ℚ × ℚ)
  | .unitSquare => some (0, 0)
  | .shifted c o => (com c).map fun p => (o.1 + p.1, o.2 + p.2)
  | .scaled c _ => com c
  | .weighted c _ => com c
  | .sum a b =>
      match com a, com b with
      | some (x1, y1), some (x2, y2) =>
          let m1 := area a
          let m2 := area b
          if m1 + m2 = 0 then none
          else some ((x1 * m1 + x2 * m2) / (m1 + m2), (y1 * m1 + y2 * m2) / (m1 + m2))
      | _, _ => none

/-- `_Crossection.center`: queries the shape's own centroid (which can fault)
and shifts by its negation. -/
def center (c : Crossection) : Option Crossection :=
  (com c).map fun p => Crossection.shifted c (-p.1, -p.2)

/-- `Rectangle(x_side, y_side)._composite`: the unit square scaled by the
pair (x_side, y_side). -/
def Rectangle (x_side y_side : ℚ) : Crossection :=
  Crossection.scaled Crossection.unitSquare (x_side, y_side)

/-- The runtime type of the argument passed to `_Crossection.scale`: a Python
float, a Python int, or an (fx, fy) pair. -/
inductive ScaleArg where
  | pyFloat : ℚ → ScaleArg
  | pyInt : ℤ → ScaleArg
  | pyPair : ℚ × ℚ → ScaleArg
deriving DecidableEq

/-- The `if isinstance(scale, float): scale = (scale, scale)` dispatch in
`_Crossection.scale`: only a float is converted to a pair; an int (for which
`isinstance(scale, float)` is False) is stored unconverted. -/
def scaleDispatch : ScaleArg → ScaleArg
  | .pyFloat q => .pyPair (q, q)
  | s => s

/-- Python subscripting `scale[i]` on the stored value: succeeds only on a
pair (TypeError, modelled as `none`, otherwise). -/
def subscript : ScaleArg → ℕ → Option ℚ
  | .pyPair p, 0 => some p.1
  | .pyPair p, 1 => some p.2
  | _, _ => none

/-- A `_ScaledCrossection` node as actually built by `scale`: the child and
the raw stored scale value (of whatever runtime type survived dispatch). -/
structure DynScaled where
  child : Crossection
  stored : ScaleArg
deriving DecidableEq

/-- `_Crossection.scale`: dispatch on the argument type, then construct the
node with the (possibly unconverted) stored value. -/
def scaleMethod (c : Crossection) (s : ScaleArg) : DynScaled :=
  ⟨c, scaleDispatch s⟩

/-- `_ScaledCrossection.area` on the raw node: subscripts the stored scale
twice, so it raises TypeError (`none`) unless a pair is stored. -/
def DynScaled.areaQ (d : DynScaled) : Option ℚ := do
  let f0 ← subscript d.stored 0
  let f1 ← subscript d.stored 1
  pure (area d.child * f0 * f1)

/-- `_ScaledCrossection.bb` on the raw node: tuple-unpacks the stored scale,
so it raises TypeError (`none`) unless a pair is stored. -/
def DynScaled.bbQ (d : DynScaled) : Option ((ℚ × ℚ) × (ℚ × ℚ)) :=
  match d.stored with
  | .pyPair f =>
      some (((bb d.child).1.1 * f.1, (bb d.child).1.2 * f.2),
            ((bb d.child).2.1 * f.1, (bb d.child).2.2 * f.2))
  | _ => none

/-- `_ScaledCrossection.mom` on the raw node: subscripts the stored scale,
so it raises TypeError (`none`) unless a pair is stored. -/
def DynScaled.momQ (d : DynScaled) : Option ℚ := do
  let f0 ← subscript d.stored 0
  let f1 ← subscript d.stored 1
  pure (mom d.child * f0 * f1 ^ 3)

/-- `_ScaledCrossection.com` on the raw node: never touches the stored scale,
it just returns the child's centroid. -/
def DynScaled.comQ (d : DynScaled) : Option (ℚ × ℚ) := com d.child

/-- The runtime type of the right operand of `*` on a cross-section: a real
number (Python float or int), or some non-numeric object (tagged by a
string). -/
inductive MulArg where
  | num : ℚ → MulArg
  | nonNum : String → MulArg
deriving DecidableEq

/-- `_Crossection.__mul__`: asserts `isinstance(weight, (float, int))` before
constructing the node, so a non-numeric operand is an AssertionError
(`none`) at composition time, while a numeric operand yields the Weighted
node. -/
def mul (c : Crossection) : MulArg → Option Crossection
  | .num w => some (Crossection.weighted c w)
  | .nonNum _ => none

/-- `_Crossection.__rmul__`: delegates to `self * weight`. -/
def rmul (c : Crossection) (a : MulArg) : Option Crossection := mul c a

/-- A shape of nonzero total area containing a zero-area sub-sum: the unit
square plus its own negation, plus another unit square. -/
def badA : Crossection :=
  Crossection.sum
    (Crossection.sum Crossection.unitSquare (Crossection.weighted Crossection.unitSquare (-1)))
    Crossection.unitSquare

/-- C1: for every shape A and every offset (dx, dy), the moment of the
shifted shape equals the child's moment plus the child's area times dy
squared; dx does not appear in the law. -/
theorem shifted_mom_parallel_axis (A : Crossection) (dx dy : ℚ) :
    mom (Crossection.shifted A (dx, dy)) = mom A + area A * dy ^ 2 := by
  show mom A + area A * dy * dy = mom A + area A * dy ^ 2
  ring

/-- C2: for every shape A and factor pair (fx, fy), scaling multiplies the
area by fx·fy and the moment by fx·fy³. -/
theorem scaled_laws (A : Crossection) (fx fy : ℚ) :
    area (Crossection.scaled A (fx, fy)) = area A * fx * fy ∧
    mom (Crossection.scaled A (fx, fy)) = mom A * fx * fy ^ 3 :=
  ⟨rfl, rfl⟩

/-- C3: when both children's centroid queries succeed, the centroid of a sum
is the area-weighted average of the children's centroids, except that when
the two areas cancel exactly the query is a division-by-zero fault (`none`)
rather than a value. -/
theorem sum_com_law (A B : Crossection) (c1 c2 : ℚ × ℚ)
    (h1 : com A = some c1) (h2 : com B = some c2) :
    com (Crossection.sum A B) =
      if area A + area B = 0 then none
      else some ((c1.1 * area A + c2.1 * area B) / (area A + area B),
                 (c1.2 * area A + c2.2 * area B) / (area A + area B)) := by
  obtain ⟨x1, y1⟩ := c1
  obtain ⟨x2, y2⟩ := c2
  simp only [com, h1, h2]

/-- Witness for C3: the unit square plus its negation has centroid queries
succeeding on both children, areas cancelling, and a faulting sum centroid. -/
theorem sum_com_law_witness :
    com Crossection.unitSquare = some (0, 0) ∧
    com (Crossection.weighted Crossection.unitSquare (-1)) = some (0, 0) ∧
    com (Crossection.sum Crossection.unitSquare
          (Crossection.weighted Crossection.unitSquare (-1))) = none := by
  refine ⟨rfl, rfl, ?_⟩
  have h := sum_com_law Crossection.unitSquare
    (Crossection.weighted Crossection.unitSquare (-1)) (0, 0) (0, 0) rfl rfl
  have hz : area Crossection.unitSquare +
      area (Crossection.weighted Crossection.unitSquare (-1)) = 0 := by
    norm_num [area]
  rw [h, if_pos hz]

/-- Counterexample to C4 as stated: `badA` has nonzero area, yet its own
centroid query already faults (it contains a zero-area sub-sum), so
`centroid(center(badA))` faults instead of returning (0, 0). -/
theorem center_com_counterexample :
    area badA ≠ 0 ∧ (center badA).bind com ≠ some (0, 0) := by
  constructor
  · norm_num [badA, area]
  · have hb : (center badA).bind com = none := by norm_num [badA, center, com, area]
    simp [hb]

/-- C4 (amended): for every shape A whose own centroid query succeeds with
value p, `center` shifts A by the negation of p and the centroid of the
result is exactly (0, 0). -/
theorem center_com_amended (A : Crossection) (p : ℚ × ℚ) (h : com A = some p) :
    center A = some (Crossection.shifted A (-p.1, -p.2)) ∧
    (center A).bind com = some (0, 0) := by
  constructor
  · simp [center, h]
  · simp [center, h, com]

/-- Witness for the amended C4 at the unit square. -/
theorem center_com_witness :
    com Crossection.unitSquare = some (0, 0) ∧
    center Crossection.unitSquare =
      some (Crossection.shifted Crossection.unitSquare (0, 0)) ∧
    (center Crossection.unitSquare).bind com = some (0, 0) := by
  have h := center_com_amended Crossection.unitSquare (0, 0) rfl
  exact ⟨rfl, by simpa using h.1, h.2⟩

/-- C5: a single float scalar s is dispatched to the pair (s, s) and every
query of the node agrees with scaling by (s, s); but a single int scalar
(here 2) is stored unconverted, so the area, bounding-box and moment queries
raise TypeError (`none`) instead of behaving like scaling by (2, 2). -/
theorem scale_scalar_dispatch (A : Crossection) (s : ℚ) :
    (scaleMethod A (ScaleArg.pyFloat s)).areaQ = some (area (Crossection.scaled A (s, s))) ∧
    (scaleMethod A (ScaleArg.pyFloat s)).bbQ = some (bb (Crossection.scaled A (s, s))) ∧
    (scaleMethod A (ScaleArg.pyFloat s)).momQ = some (mom (Crossection.scaled A (s, s))) ∧
    (scaleMethod A (ScaleArg.pyFloat s)).comQ = com (Crossection.scaled A (s, s)) ∧
    (scaleMethod A (ScaleArg.pyInt 2)).areaQ = none ∧
    (scaleMethod A (ScaleArg.pyInt 2)).bbQ = none ∧
    (scaleMethod A (ScaleArg.pyInt 2)).momQ = none :=
  ⟨rfl, rfl, rfl, rfl, rfl, rfl, rfl⟩

/-- C6: weighting by a scalar w multiplies area and moment by w and leaves
the bounding box and the centroid unchanged, for every w including negative
values. -/
theorem weighted_laws (A : Crossection) (w : ℚ) :
    area (Crossection.weighted A w) = area A * w ∧
    mom (Crossection.weighted A w) = mom A * w ∧
    bb (Crossection.weighted A w) = bb A ∧
    com (Crossection.weighted A w) = com A :=
  ⟨rfl, rfl, rfl, rfl⟩

/-- C7: summing adds areas, and the bounding box of a sum is the
componentwise min of the mins and max of the maxes of the children's
bounding boxes. -/
theorem sum_superposition (A B : Crossection) :
    area (Crossection.sum A B) = area A + area B ∧
    bb (Crossection.sum A B) =
      ((min (bb A).1.1 (bb B).1.1, min (bb A).1.2 (bb B).1.2),
       (max (bb A).2.1 (bb B).2.1, max (bb A).2.2 (bb B).2.2)) :=
  ⟨rfl, rfl⟩

/-- C8: Rectangle(x, y) is the unit square scaled by (x, y); Rectangle(2, 1)
has area 2, bounding box ((-1,-1/2),(1,1/2)), moment 1/6 and centroid (0,0);
the unit square has area 1, moment 1/12, bounding box
((-1/2,-1/2),(1/2,1/2)) and centroid (0,0). -/
theorem rectangle_unit_square_props :
    (∀ x_side y_side : ℚ,
      Rectangle x_side y_side = Crossection.scaled Crossection.unitSquare (x_side, y_side)) ∧
    area (Rectangle 2 1) = 2 ∧
    bb (Rectangle 2 1) = ((-1, -(1/2)), (1, 1/2)) ∧
    mom (Rectangle 2 1) = 1/6 ∧
    com (Rectangle 2 1) = some (0, 0) ∧
    area Crossection.unitSquare = 1 ∧
    mom Crossection.unitSquare = 1/12 ∧
    bb Crossection.unitSquare = ((-(1/2), -(1/2)), (1/2, 1/2)) ∧
    com Crossection.unitSquare = some (0, 0) :=
  ⟨fun _ _ => rfl, by norm_num [Rectangle, area], by norm_num [Rectangle, bb],
   by norm_num [Rectangle, mom], rfl, rfl, rfl, rfl, rfl⟩

/-- C9: the weighting (multiplication) operator succeeds at composition time
for every numeric operand, yielding the Weighted node, and faults at
composition time (AssertionError, modelled as `none`) for every non-numeric
operand, before any node is built. -/
theorem mul_type_check (A : Crossection) (w : ℚ) (s : String) :
    mul A (MulArg.num w) = some (Crossection.weighted A w) ∧
    mul A (MulArg.nonNum s) = none :=
  ⟨rfl, rfl⟩

/-- C10: left multiplication delegates to right multiplication, so w * A and
A * w build the same Weighted node, with identical area, bounding box,
moment and centroid. -/
theorem rmul_matches_mul (A : Crossection) (w : ℚ) :
    rmul A (MulArg.num w) = mul A (MulArg.num w) ∧
    rmul A (MulArg.num w) = some (Crossection.weighted A w) ∧
    (rmul A (MulArg.num w)).map area = some (area A * w) ∧
    (rmul A (MulArg.num w)).map bb = some (bb A) ∧
    (rmul A (MulArg.num w)).map mom = some (mom A * w) ∧
    (rmul A (MulArg.num w)).map com = some (com A) :=
  ⟨rfl, rfl, rfl, rfl, rfl, rfl⟩

end Beam
